import Mathlib

/-!
Verification of the Motofix driver-assist client against its specification.

The client is a browser single-page app; the parts relevant here are:
* the authentication hook (src/hooks/useAuth.ts): checkAuth / login / logout
  and the mount-time restore effect, all operating on three localStorage keys
  (motofix_token, motofix_user, motofix_last_auth_check);
* the axios interceptor (src/config/api.ts): addAuthInterceptor installed on
  the two API instances authApi and requestsApi;
* the geocoding helper (src/utils/geocode.ts): throttle, reverseGeocode,
  isCoordString, parseCoordString;
* the phone normaliser formatPhone (src/pages/Login.tsx).

JavaScript strings that matter character-by-character are modelled as
List Char; opaque strings (tokens, messages) as String.  localStorage is
restricted to the three keys the client touches.  A value stored under the
user key is modelled as either the JSON.stringify image of a user record
(which JSON.parse inverts) or an arbitrary other string on which JSON.parse
fails; this captures exactly the round-trip and failure behaviour the code
relies on.
-/

namespace Motofix

/-- The user record handled by the auth service (mirrors the User
interface of src/hooks/useAuth.ts; optional fields are Option). -/
structure User where
  id : Option String
  phone : String
  full_name : Option String
  role : String
deriving Repr, DecidableEq

/-- A string stored under the motofix_user key: either JSON.stringify of a
user record, or any other string, on which JSON.parse does not yield a
user.  The payload of bad records the raw string so that JavaScript
truthiness (empty string is falsy) can be expressed. -/
inductive UserVal where
  | ok (u : User)
  | bad (s : String)
deriving Repr, DecidableEq

/-- JSON.parse of a stored user value, as the code uses it: succeeds exactly
on stringified user records. -/
def parseUserVal : UserVal → Option User
  | .ok u => some u
  | .bad _ => none

/-- localStorage restricted to the three keys the client uses:
motofix_token, motofix_user, motofix_last_auth_check.  none means the key
is absent (getItem returns null). -/
structure Storage where
  token : Option String
  userVal : Option UserVal
  lastAuthCheck : Option String
deriving Repr, DecidableEq

/-- JavaScript truthiness of a getItem result: null and the empty string
are falsy. -/
def truthyOptS : Option String → Bool
  | none => false
  | some s => !(s == "")

/-- JavaScript truthiness of the stored user value (a stringified record is
a nonempty string, hence truthy). -/
def truthyUserVal : Option UserVal → Bool
  | none => false
  | some (.ok _) => true
  | some (.bad s) => !(s == "")

/-- The in-memory react state of useAuth: the user / isLoading /
isAuthenticated state hooks plus the authCheckInProgressRef guard. -/
structure AuthState where
  user : Option User
  isLoading : Bool
  isAuthenticated : Bool
  authCheckInProgress : Bool
deriving Repr, DecidableEq

/-- The client state a useAuth operation can read and write: localStorage
plus the hook state. -/
structure ClientState where
  storage : Storage
  auth : AuthState
deriving Repr, DecidableEq

/-- An axios error as checkAuth inspects it: error.response?.status,
error.code and error.message. -/
structure ApiError where
  status : Option Nat
  code : Option String
  message : String
deriving Repr, DecidableEq

/-- One outcome of an authService.getMe() attempt: resolves with a user
record, or rejects with an axios error. -/
inductive MeOutcome where
  | ok (u : User)
  | err (e : ApiError)
deriving Repr, DecidableEq

/-- The retry condition of checkAuth (src/hooks/useAuth.ts line 69):
error.code === ECONNABORTED or error.message === Network Error. -/
def isRetryableErr (e : ApiError) : Bool :=
  e.code == some "ECONNABORTED" || e.message == "Network Error"

/-- The observable result of one checkAuth invocation: the final client
state, how many getMe network requests were issued, and the list of
awaited retry delays in milliseconds. -/
structure CheckAuthResult where
  state : ClientState
  requests : Nat
  delays : List Nat
deriving Repr, DecidableEq

/-- The outer catch block of checkAuth (src/hooks/useAuth.ts lines 78-106)
together with the finally clause: on 401 remove both keys and mark
unauthenticated; on any other error keep storage and re-adopt the
parseable cached user, if any.  s1 is the state at the throw point (guard
set). -/
def checkAuthCatch (e : ApiError) (s1 : ClientState) : CheckAuthResult :=
  if e.status = some 401 then
    let st401 : Storage := { s1.storage with token := none, userVal := none }
    let a401 : AuthState := { user := none, isLoading := false, isAuthenticated := false, authCheckInProgress := false }
    { state := { storage := st401, auth := a401 }, requests := 1, delays := [] }
  else
    let auth1 : AuthState :=
      match s1.storage.userVal with
      | some uv =>
        match parseUserVal uv with
        | some u => { s1.auth with user := some u, isAuthenticated := true }
        | none => s1.auth
      | none => s1.auth
    let aFb : AuthState := { auth1 with isLoading := false, authCheckInProgress := false }
    { state := { s1 with auth := aFb }, requests := 1, delays := [] }

/-- The body of checkAuth (src/hooks/useAuth.ts lines 33-111), as a state
transformer.  outcomes gives the getMe result of each attempt, indexed by
retryCount; now is Date.now() as stored into motofix_last_auth_check.
The source recursion is on retryCount with the guard
retryCount < maxRetries; here retriesLeft = maxRetries - retryCount is
carried explicitly so the recursion is structural, and the guard becomes
retriesLeft > 0.  Control flow modelled:
* early return when the in-flight guard is set (before the try block, so
  the finally clause does not run);
* the no-token early return (empty-string tokens are falsy in JS);
* success: set user / authenticated, write motofix_user and
  motofix_last_auth_check;
* retryable error with retries left: await 2000 ms, clear the guard,
  recurse (the outer finally then re-clears isLoading and the guard);
* any other throw: handled by checkAuthCatch. -/
def checkAuthGo (outcomes : Nat → MeOutcome) (now : Nat) :
    Nat → Nat → ClientState → CheckAuthResult
  | retriesLeft, retryCount, s =>
    if s.auth.authCheckInProgress then
      { state := s, requests := 0, delays := [] }
    else
      let s1 : ClientState := { s with auth := { s.auth with authCheckInProgress := true } }
      if truthyOptS s1.storage.token = false then
        let aNone : AuthState := { user := none, isLoading := false, isAuthenticated := false, authCheckInProgress := false }
        { state := { s1 with auth := aNone }, requests := 0, delays := [] }
      else
        match outcomes retryCount with
        | .ok u =>
          let stOk : Storage := { s1.storage with userVal := some (.ok u), lastAuthCheck := some (toString now) }
          let aOk : AuthState := { user := some u, isLoading := false, isAuthenticated := true, authCheckInProgress := false }
          { state := { storage := stOk, auth := aOk }, requests := 1, delays := [] }
        | .err e =>
          match retriesLeft with
          | 0 => checkAuthCatch e s1
          | rl + 1 =>
            if isRetryableErr e then
              let s2 : ClientState := { s1 with auth := { s1.auth with authCheckInProgress := false } }
              let r := checkAuthGo outcomes now rl (retryCount + 1) s2
              let aFin : AuthState := { r.state.auth with isLoading := false, authCheckInProgress := false }
              { state := { r.state with auth := aFin }, requests := r.requests + 1, delays := 2000 :: r.delays }
            else checkAuthCatch e s1

/-- checkAuth with its default arguments retryCount = 0, maxRetries = 2. -/
def checkAuth (outcomes : Nat → MeOutcome) (now : Nat) (s : ClientState) :
    CheckAuthResult :=
  checkAuthGo outcomes now 2 0 s

/-- The synchronous prefix of a checkAuth call within one event-loop tick
(src/hooks/useAuth.ts lines 33-58).  Returns the state at the moment the
call either returns or suspends, and how many getMe requests the call
issued within the tick.  With the guard set: immediate return (0
requests).  No truthy token: the whole body including the finally clause
runs synchronously, no await is reached (0 requests).  Token present: the
call suspends at await authService.getMe() with the guard still set,
having just issued the request (1 request). -/
def checkAuthTick (s : ClientState) : ClientState × Nat :=
  if s.auth.authCheckInProgress then (s, 0)
  else
    let s1 : ClientState := { s with auth := { s.auth with authCheckInProgress := true } }
    if truthyOptS s1.storage.token = false then
      let aNone : AuthState := { user := none, isLoading := false, isAuthenticated := false, authCheckInProgress := false }
      ({ s1 with auth := aNone }, 0)
    else (s1, 1)

/-- Browser-global state touched by the axios response interceptor:
localStorage and window.location.href. -/
structure BrowserState where
  storage : Storage
  locationHref : String
deriving Repr, DecidableEq

/-- The response error handler installed by addAuthInterceptor
(src/config/api.ts lines 58-74): if the response status is 401, remove
motofix_token and motofix_user and assign window.location.href to /login;
in every case return Promise.reject(error) (recorded by the Bool). -/
def interceptorOnResponseError (e : ApiError) (w : BrowserState) : BrowserState × Bool :=
  if e.status = some 401 then
    ({ storage := { w.storage with token := none, userVal := none }, locationHref := "/login" }, true)
  else (w, true)

/-- An axios instance as far as interceptor wiring is concerned: its base
URL and the installed response error handler. -/
structure ApiInstance where
  baseURL : String
  responseErrorHandler : ApiError → BrowserState → BrowserState × Bool

def AUTH_BASE_URL : String := "https://motofix-auth-service.onrender.com"

def REQUESTS_BASE_URL : String := "https://motofix-service-requests.onrender.com"

/-- addAuthInterceptor (src/config/api.ts lines 34-76) installs the 401
handler on an instance. -/
def addAuthInterceptor (inst : ApiInstance) : ApiInstance :=
  { inst with responseErrorHandler := interceptorOnResponseError }

/-- The auth-service axios instance after addAuthInterceptor(authApi)
(src/config/api.ts lines 15-22 and 78); a freshly created instance
re-rejects errors unchanged. -/
def authApi : ApiInstance :=
  addAuthInterceptor { baseURL := AUTH_BASE_URL, responseErrorHandler := fun _ w => (w, true) }

/-- The requests-service axios instance after
addAuthInterceptor(requestsApi) (src/config/api.ts lines 24-31 and 79). -/
def requestsApi : ApiInstance :=
  addAuthInterceptor { baseURL := REQUESTS_BASE_URL, responseErrorHandler := fun _ w => (w, true) }

/-- An axios network-unreachable error: no response, message Network
Error. -/
def netErr : ApiError := { status := none, code := none, message := "Network Error" }

/-- An axios 5xx error: response status 500, code ERR_BAD_RESPONSE. -/
def err500 : ApiError := { status := some 500, code := some "ERR_BAD_RESPONSE", message := "Request failed with status code 500" }

/-- A browser state holding a cached session while the in-memory
authenticated flag is still false (reachable, e.g., when another tab signs
in through the shared localStorage and this tab then runs a manual
checkAuth). -/
def cachedNotAuthedState : ClientState :=
  { storage := { token := some "tok", userVal := some (.ok { id := some "u1", phone := "+256700000000", full_name := none, role := "driver" }), lastAuthCheck := none },
    auth := { user := none, isLoading := false, isAuthenticated := false, authCheckInProgress := false } }

/-- A signed-in browser state: cached session in storage and the
authenticated flag set. -/
def cachedAuthedState : ClientState :=
  { storage := { token := some "tok", userVal := some (.ok { id := some "u1", phone := "+256700000000", full_name := none, role := "driver" }), lastAuthCheck := some "5" },
    auth := { user := some { id := some "u1", phone := "+256700000000", full_name := none, role := "driver" }, isLoading := false, isAuthenticated := true, authCheckInProgress := false } }

/-- A signed-out browser state: no keys in storage, no check in flight. -/
def signedOutState : ClientState :=
  { storage := { token := none, userVal := none, lastAuthCheck := none },
    auth := { user := none, isLoading := true, isAuthenticated := false, authCheckInProgress := false } }

/-- The storage effect of logout (src/hooks/useAuth.ts lines 198-214):
remove all three keys; the best-effort remote call touches no storage. -/
def logoutStorage (_st : Storage) : Storage :=
  { token := none, userVal := none, lastAuthCheck := none }

/-- The storage effect of a successful login (src/hooks/useAuth.ts lines
161-192): when the returned access_token is truthy, write the token and
last-check keys; in any case write the fresh user record. -/
def loginStorage (access_token : Option String) (userData : User) (now : Nat) (st : Storage) : Storage :=
  let st1 : Storage :=
    if truthyOptS access_token then { st with token := access_token, lastAuthCheck := some (toString now) } else st
  { st1 with userVal := some (.ok userData) }

/-- The mount effect of useAuth up to the point it triggers checkAuth
(src/hooks/useAuth.ts lines 117-145): when both stored values are truthy,
adopt the parsed cached user (leaving isLoading true until verification),
or, when the cached user string does not parse, remove just the
motofix_user key; when either value is missing, stop loading. -/
def mountRestore (s : ClientState) : ClientState :=
  if truthyOptS s.storage.token && truthyUserVal s.storage.userVal then
    match s.storage.userVal with
    | some uv =>
      match parseUserVal uv with
      | some u => { s with auth := { s.auth with user := some u, isAuthenticated := true } }
      | none => { s with storage := { s.storage with userVal := none } }
    | none => s
  else
    { s with auth := { s.auth with isLoading := false } }

/-- A storage transition removed one of the two session keys (present
before, absent after) while the other key is still present afterwards. -/
def removesOneAlone (before after : Storage) : Bool :=
  (before.token.isSome && after.token.isNone && after.userVal.isSome) ||
  (before.userVal.isSome && after.userVal.isNone && after.token.isSome)

/-! ### Geocoding throttle (src/utils/geocode.ts)

Times are milliseconds as Int.  The module keeps one mutable variable
lastRequestTime, initially 0. -/

/-- MIN_INTERVAL_MS (src/utils/geocode.ts line 9). -/
def MIN_INTERVAL_MS : Int := 1000

/-- The clock time at which the promise returned by throttle() resolves,
when throttle is called at time now with lastRequestTime = last
(src/utils/geocode.ts lines 12-21): if less than MIN_INTERVAL_MS elapsed
since a positive last request time, wait out the remainder; slack is how
late the setTimeout callback fires beyond the requested delay (0 for an
exact timer), and is only incurred when a timer is actually set. -/
def throttleResume (last now slack : Int) : Int :=
  if now - last < MIN_INTERVAL_MS ∧ 0 < last then now + (MIN_INTERVAL_MS - (now - last)) + slack
  else now

/-- Issue times of the outbound Nominatim requests for a back-to-back
sequence of reverseGeocode calls (src/utils/geocode.ts lines 70-81): each
call awaits throttle(), then stores Date.now() into lastRequestTime and
immediately issues the fetch, so the request goes out at the resume time,
which also becomes the new lastRequestTime.  Each list entry is the call
begin time and the timer slack; the accumulator is lastRequestTime. -/
def issueTimes : Int → List (Int × Int) → List Int
  | _, [] => []
  | last, (now, slack) :: rest =>
    let t := throttleResume last now slack
    t :: issueTimes t rest

/-- The calls are well formed and sequential (non-overlapping): positive
clock times, nonnegative timer slack, and each call begins no earlier than
the previous request was issued. -/
def sequentialCalls : Int → List (Int × Int) → Bool
  | _, [] => true
  | last, (now, slack) :: rest =>
    (0 < now && 0 ≤ slack && last ≤ now) && sequentialCalls (throttleResume last now slack) rest

/-- Consecutive entries are at least 1000 ms apart. -/
def spacedBy1000 : List Int → Bool
  | [] => true
  | [_] => true
  | a :: b :: rest => (a + 1000 ≤ b) && spacedBy1000 (b :: rest)

/-! ### Reverse geocoding result (src/utils/geocode.ts) -/

/-- Address parts of a Nominatim response (src/utils/geocode.ts lines
23-33).  A field absent from the JSON is none; a present field holds its
string, and JS truthiness treats the empty string as absent. -/
structure NominatimAddress where
  road : Option String
  suburb : Option String
  neighbourhood : Option String
  village : Option String
  city : Option String
  town : Option String
  state : Option String
  country : Option String
deriving Repr, DecidableEq

/-- A parsed Nominatim response body (src/utils/geocode.ts lines 35-38). -/
structure NominatimResponse where
  display_name : Option String
  address : Option NominatimAddress
deriving Repr, DecidableEq

/-- The result of awaiting res.json(): either the payload fails to parse
(the promise rejects) or it yields a response value. -/
inductive JsonBody where
  | malformed
  | parsed (data : NominatimResponse)
deriving Repr, DecidableEq

/-- The outcome of the fetch call inside reverseGeocode: the promise
rejects (network error), or a response arrives with its ok flag
(status in 200-299) and body. -/
inductive FetchOutcome where
  | netError
  | resp (ok : Bool) (body : JsonBody)
deriving Repr, DecidableEq

/-- displayName.split(",").slice(0, 2).map trim, joined with a comma and
space, as used twice in src/utils/geocode.ts (lines 59 and 103). -/
def firstTwoParts (dn : String) : String :=
  String.intercalate ", " (((dn.splitOn ",").take 2).map String.trim)

/-- formatFriendlyAddress (src/utils/geocode.ts lines 44-63): road +
suburb/neighbourhood + city/town/village, skipping falsy and duplicate
parts; falls back to the first two comma-separated parts of
display_name. -/
def formatFriendlyAddress (address : NominatimAddress) (displayName : Option String) : String :=
  let road := address.road
  let suburb := if truthyOptS address.suburb then address.suburb else address.neighbourhood
  let city :=
    if truthyOptS address.city then address.city
    else if truthyOptS address.town then address.town
    else address.village
  let parts : List String :=
    (if truthyOptS road then [road.getD ""] else []) ++
    (if truthyOptS suburb && !(suburb == road) then [suburb.getD ""] else []) ++
    (if truthyOptS city && !(city == suburb) then [city.getD ""] else [])
  if parts.length > 0 then String.intercalate ", " parts
  else if truthyOptS displayName then
    let firstTwo := firstTwoParts (displayName.getD "")
    if firstTwo ≠ "" then firstTwo else ""
  else ""

/-- The value reverseGeocode resolves with (src/utils/geocode.ts lines
70-109), as a function of the fetch outcome.  The try/catch around fetch
and res.json maps any rejection to null; a response that is not ok
returns null; otherwise the friendly address is built, falling back to
the trimmed display name and finally to null. -/
def reverseGeocode (outcome : FetchOutcome) : Option String :=
  match outcome with
  | .netError => none
  | .resp ok body =>
    if !ok then none
    else
      match body with
      | .malformed => none
      | .parsed data =>
        let address := data.address
        let displayName := data.display_name
        let fromAddress : Option String :=
          match address with
          | some a =>
            let friendly := formatFriendlyAddress a displayName
            if friendly ≠ "" then some friendly else none
          | none => none
        match fromAddress with
        | some r => some r
        | none =>
          match displayName with
          | some dn => if dn.trim ≠ "" then some (firstTwoParts dn) else none
          | none => none

/-! ### Coordinate strings (src/utils/geocode.ts lines 114-140)

JS strings are modelled character-exactly as List Char here, because
isCoordString and parseCoordString inspect their input character by
character (trim, split on commas, parseFloat). -/

/-- The whitespace characters stripped by trim and skipped by
parseFloat. -/
def jsWs (c : Char) : Bool := c = ' ' || c = '\t' || c = '\n' || c = '\r'

/-- String.prototype.trim: strip whitespace from both ends. -/
def jsTrim (cs : List Char) : List Char :=
  ((cs.dropWhile jsWs).reverse.dropWhile jsWs).reverse

/-- String.prototype.split with separator comma: splitting never yields an
empty list (an input without commas yields one field). -/
def splitOnComma : List Char → List (List Char)
  | [] => [[]]
  | c :: rest =>
    if c = ',' then [] :: splitOnComma rest
    else
      match splitOnComma rest with
      | p :: ps => (c :: p) :: ps
      | [] => [[c]]

/-- A JS number as parseFloat can produce it: NaN, a signed infinity
(neg true is negative infinity), or a finite value kept as the exact
fraction n / d with d a positive power of ten.  The double rounding of
the runtime is not modelled, which leaves every comparison in
isCoordString unchanged except on inputs written with more than float
precision. -/
inductive JsNum where
  | nan
  | inf (neg : Bool)
  | num (n : Int) (d : Nat)
deriving Repr, DecidableEq

/-- A decimal digit. -/
def isDigitChar (c : Char) : Bool := '0' ≤ c && c ≤ '9'

/-- The natural number denoted by a list of decimal digits. -/
def digitsToNat (ds : List Char) : Nat :=
  ds.foldl (fun a c => a * 10 + (c.toNat - '0'.toNat)) 0

/-- JS parseFloat: skip leading whitespace, an optional sign, then the
longest prefix that is Infinity or a decimal literal (integer part,
optional fraction, optional exponent); no parsable prefix gives NaN.
Trailing garbage is ignored; an exponent marker without digits is
ignored. -/
def parseFloat (cs0 : List Char) : JsNum :=
  let cs := cs0.dropWhile jsWs
  let sgn : Bool × List Char :=
    match cs with
    | '-' :: rest => (true, rest)
    | '+' :: rest => (false, rest)
    | _ => (false, cs)
  let neg := sgn.1
  let cs := sgn.2
  if ['I', 'n', 'f', 'i', 'n', 'i', 't', 'y'].isPrefixOf cs then .inf neg
  else
    let ip := cs.takeWhile isDigitChar
    let cs1 := cs.dropWhile isDigitChar
    let fpr : List Char × List Char :=
      match cs1 with
      | '.' :: rest => (rest.takeWhile isDigitChar, rest.dropWhile isDigitChar)
      | _ => ([], cs1)
    let fp := fpr.1
    let cs2 := fpr.2
    if ip.isEmpty && fp.isEmpty then .nan
    else
      let mNum : Nat := digitsToNat ip * 10 ^ fp.length + digitsToNat fp
      let mDen : Nat := 10 ^ fp.length
      let expVal : Int :=
        match cs2 with
        | e :: rest =>
          if e = 'e' || e = 'E' then
            let esgn : Bool × List Char :=
              match rest with
              | '-' :: r => (true, r)
              | '+' :: r => (false, r)
              | _ => (false, rest)
            let ed := esgn.2.takeWhile isDigitChar
            if ed.isEmpty then 0
            else if esgn.1 then -(digitsToNat ed : Int) else (digitsToNat ed : Int)
          else 0
        | [] => 0
      let sNum : Int := if 0 ≤ expVal then (mNum : Int) * 10 ^ expVal.toNat else (mNum : Int)
      let sDen : Nat := if 0 ≤ expVal then mDen else mDen * 10 ^ (-expVal).toNat
      .num (if neg then -sNum else sNum) sDen

/-- JS comparison a <= b on numbers: false whenever either side is NaN;
finite fractions compare by cross multiplication (denominators produced
by parseFloat are positive). -/
def jsLe : JsNum → JsNum → Bool
  | .nan, _ => false
  | _, .nan => false
  | .num a ad, .num b bd => a * (bd : Int) ≤ b * (ad : Int)
  | .inf true, _ => true
  | _, .inf false => true
  | .inf false, _ => false
  | _, .inf true => false

/-- Number.isFinite. -/
def isFiniteJs : JsNum → Bool
  | .num _ _ => true
  | _ => false

/-- The lat and lng values produced by parseCoordString. -/
structure CoordPair where
  lat : JsNum
  lng : JsNum
deriving Repr, DecidableEq

/-- isCoordString (src/utils/geocode.ts lines 114-129): a falsy (empty)
string is rejected up front; the trimmed input must split on commas into
exactly two parts whose parseFloat values are finite and inside the
latitude and longitude ranges. -/
def isCoordString (location : List Char) : Bool :=
  if location.isEmpty then false
  else
    let trimmed := jsTrim location
    let parts := (splitOnComma trimmed).map jsTrim
    if parts.length ≠ 2 then false
    else
      let lat := parseFloat (parts.getD 0 [])
      let lng := parseFloat (parts.getD 1 [])
      isFiniteJs lat && isFiniteJs lng &&
        jsLe (.num (-90) 1) lat && jsLe lat (.num 90 1) &&
        jsLe (.num (-180) 1) lng && jsLe lng (.num 180 1)

/-- parseCoordString (src/utils/geocode.ts lines 134-140): null unless
isCoordString accepts, then the same split and parseFloat yield the
pair. -/
def parseCoordString (location : List Char) : Option CoordPair :=
  if !isCoordString location then none
  else
    let parts := (splitOnComma (jsTrim location)).map jsTrim
    some { lat := parseFloat (parts.getD 0 []), lng := parseFloat (parts.getD 1 []) }

/-- A concrete coordinate string (Kampala) used as a witness input. -/
def coordSample : List Char := "0.31, 32.58".data

/-! ### Phone normalisation (src/pages/Login.tsx lines 30-42) -/

/-- formatPhone: strip every non-digit, then format for Uganda: a 256
prefix just gains a plus sign, a leading 0 is replaced by +256, any other
nonempty digit string is prefixed with +256, and no digits yield the
empty string. -/
def formatPhone (value : List Char) : List Char :=
  let digits := value.filter isDigitChar
  if ['2', '5', '6'].isPrefixOf digits then '+' :: digits
  else if ['0'].isPrefixOf digits then '+' :: '2' :: '5' :: '6' :: digits.tail
  else if digits.length > 0 then '+' :: '2' :: '5' :: '6' :: digits
  else []

end Motofix

namespace Motofix

/-- Claim C1: whenever checkAuth actually reaches the verification endpoint
(no check already in flight, a truthy token in storage) and the endpoint
answers HTTP 401, the call ends with both the token key and the user key
absent from storage and the authenticated flag false, whatever session was
cached before. -/
theorem checkAuth_401_clears_storage (now : Nat) (s : ClientState) (e : ApiError)
    (hguard : s.auth.authCheckInProgress = false)
    (htok : truthyOptS s.storage.token = true)
    (h401 : e.status = some 401) :
    ((checkAuth (fun _ => .err e) now s).state.storage.token = none) ∧
    ((checkAuth (fun _ => .err e) now s).state.storage.userVal = none) ∧
    ((checkAuth (fun _ => .err e) now s).state.auth.isAuthenticated = false) := by
  obtain ⟨⟨tok, uv, lac⟩, u0, il, ia, g⟩ := s
  simp only at hguard htok
  subst hguard
  cases hre : isRetryableErr e <;>
    simp [checkAuth, checkAuthGo, checkAuthCatch, htok, hre, h401]

/-- Witness for C1 at a concrete cached session and a concrete axios 401
error. -/
theorem checkAuth_401_clears_storage_witness :
    ((checkAuth (fun _ => .err ⟨some 401, some "ERR_BAD_REQUEST",
        "Request failed with status code 401"⟩) 7
        ⟨⟨some "tok", some (.ok ⟨some "u1", "+256700000000", none, "driver"⟩),
          some "5"⟩, ⟨none, true, true, false⟩⟩).state.storage.token = none) ∧
    ((checkAuth (fun _ => .err ⟨some 401, some "ERR_BAD_REQUEST",
        "Request failed with status code 401"⟩) 7
        ⟨⟨some "tok", some (.ok ⟨some "u1", "+256700000000", none, "driver"⟩),
          some "5"⟩, ⟨none, true, true, false⟩⟩).state.storage.userVal = none) ∧
    ((checkAuth (fun _ => .err ⟨some 401, some "ERR_BAD_REQUEST",
        "Request failed with status code 401"⟩) 7
        ⟨⟨some "tok", some (.ok ⟨some "u1", "+256700000000", none, "driver"⟩),
          some "5"⟩, ⟨none, true, true, false⟩⟩).state.auth.isAuthenticated = false) :=
  checkAuth_401_clears_storage 7 _ _ rfl rfl rfl

/-- Claim C2 (amended): when checkAuth reaches the endpoint and every
attempt fails with a non-401 error, storage is left exactly as it was (no
key removed or written) and the user is not logged out: if the
authenticated flag was true before the call it is still true afterwards.
(The flag can additionally be set to true from a parseable cached user
even when it was false before, which is the one way the post-state can
differ from the pre-state.) -/
theorem checkAuth_non401_keeps_session (now : Nat) (s : ClientState) (e : ApiError)
    (hguard : s.auth.authCheckInProgress = false)
    (htok : truthyOptS s.storage.token = true)
    (h401 : e.status ≠ some 401) :
    ((checkAuth (fun _ => .err e) now s).state.storage = s.storage) ∧
    (s.auth.isAuthenticated = true →
      (checkAuth (fun _ => .err e) now s).state.auth.isAuthenticated = true) := by
  obtain ⟨⟨tok, uv, lac⟩, u0, il, ia, g⟩ := s
  simp only at hguard htok
  subst hguard
  cases hre : isRetryableErr e <;>
    rcases uv with _ | u | bs <;>
      simp [checkAuth, checkAuthGo, checkAuthCatch, parseUserVal, htok, hre, h401]

/-- Witness for C2 at a signed-in state and a network error. -/
theorem checkAuth_non401_keeps_session_witness :
    ((checkAuth (fun _ => .err netErr) 0 cachedAuthedState).state.storage = cachedAuthedState.storage) ∧
    ((checkAuth (fun _ => .err netErr) 0 cachedAuthedState).state.auth.isAuthenticated = true) := by
  have h := checkAuth_non401_keeps_session 0 cachedAuthedState netErr rfl rfl (by decide)
  exact ⟨h.1, h.2 rfl⟩

/-- Counterexample to claim C2 as stated: with a cached session in storage
but the authenticated flag false before the call, a network failure leaves
the flag true afterwards, so the authenticated state after the call does
not equal the state before the call. -/
theorem checkAuth_non401_state_changed_cex :
    cachedNotAuthedState.auth.isAuthenticated = false ∧
    (checkAuth (fun _ => .err netErr) 0 cachedNotAuthedState).state.auth.isAuthenticated = true := by
  constructor
  · rfl
  · decide

/-- Claim C3: the response interceptor installed on both axios instances
reacts to any response with status 401, whatever its code and message and
whatever the prior browser state, by removing both the motofix_token and
motofix_user keys and forcing navigation to /login. -/
theorem interceptor_401_clears_and_redirects (c : Option String) (m : String) (w : BrowserState) :
    ((authApi.responseErrorHandler ⟨some 401, c, m⟩ w).1.storage.token = none) ∧
    ((authApi.responseErrorHandler ⟨some 401, c, m⟩ w).1.storage.userVal = none) ∧
    ((authApi.responseErrorHandler ⟨some 401, c, m⟩ w).1.locationHref = "/login") ∧
    ((requestsApi.responseErrorHandler ⟨some 401, c, m⟩ w).1.storage.token = none) ∧
    ((requestsApi.responseErrorHandler ⟨some 401, c, m⟩ w).1.storage.userVal = none) ∧
    ((requestsApi.responseErrorHandler ⟨some 401, c, m⟩ w).1.locationHref = "/login") := by
  simp [authApi, requestsApi, addAuthInterceptor, interceptorOnResponseError]

/-- Claim C4 (amended): when no check is already in flight and a truthy
token is in storage, of two checkAuth calls issued within the same
event-loop tick the first issues exactly one getMe request and the second
observes the in-flight guard and issues none, so exactly one request goes
out in total. -/
theorem checkAuth_single_flight (s : ClientState)
    (hguard : s.auth.authCheckInProgress = false)
    (htok : truthyOptS s.storage.token = true) :
    ((checkAuthTick s).2 = 1) ∧
    ((checkAuthTick (checkAuthTick s).1).2 = 0) ∧
    ((checkAuthTick s).2 + (checkAuthTick (checkAuthTick s).1).2 = 1) := by
  obtain ⟨⟨tok, uv, lac⟩, u0, il, ia, g⟩ := s
  simp only at hguard htok
  subst hguard
  simp [checkAuthTick, htok]

/-- Witness for C4 at a signed-in state. -/
theorem checkAuth_single_flight_witness :
    ((checkAuthTick cachedAuthedState).2 = 1) ∧
    ((checkAuthTick (checkAuthTick cachedAuthedState).1).2 = 0) ∧
    ((checkAuthTick cachedAuthedState).2 + (checkAuthTick (checkAuthTick cachedAuthedState).1).2 = 1) :=
  checkAuth_single_flight cachedAuthedState rfl rfl

/-- Counterexample to claim C4 as stated: with no token in storage, two
checkAuth calls in the same tick issue zero requests, not exactly one. -/
theorem checkAuth_same_tick_zero_requests_cex :
    (checkAuthTick signedOutState).2 + (checkAuthTick (checkAuthTick signedOutState).1).2 ≠ 1 := by
  decide

/-- Claim C5 (amended): when checkAuth reaches the endpoint and every
attempt fails with the same non-401 error, the retry policy is: errors
with code ECONNABORTED (timeout) or message Network Error are retried
exactly maxRetries = 2 times, each after a fixed 2000 ms delay (3 requests
in total); any other failure, including 5xx responses, is not retried (1
request, no delay).  Only after the loop ends does the call fall back to
the cached session: a parseable cached user is re-adopted and the
authenticated flag set. -/
theorem checkAuth_retry_policy (now : Nat) (s : ClientState) (e : ApiError)
    (hguard : s.auth.authCheckInProgress = false)
    (htok : truthyOptS s.storage.token = true)
    (h401 : e.status ≠ some 401) :
    (isRetryableErr e = true →
      (checkAuth (fun _ => .err e) now s).requests = 3 ∧
      (checkAuth (fun _ => .err e) now s).delays = [2000, 2000]) ∧
    (isRetryableErr e = false →
      (checkAuth (fun _ => .err e) now s).requests = 1 ∧
      (checkAuth (fun _ => .err e) now s).delays = []) ∧
    (∀ u : User, s.storage.userVal = some (.ok u) →
      (checkAuth (fun _ => .err e) now s).state.auth.isAuthenticated = true ∧
      (checkAuth (fun _ => .err e) now s).state.auth.user = some u) := by
  obtain ⟨⟨tok, uv, lac⟩, u0, il, ia, g⟩ := s
  simp only at hguard htok
  subst hguard
  cases hre : isRetryableErr e <;>
    rcases uv with _ | u | bs <;>
      simp [checkAuth, checkAuthGo, checkAuthCatch, parseUserVal, htok, hre, h401]

/-- Witness for C5 at a signed-in state and a retryable network error. -/
theorem checkAuth_retry_policy_witness :
    ((checkAuth (fun _ => .err netErr) 0 cachedAuthedState).requests = 3) ∧
    ((checkAuth (fun _ => .err netErr) 0 cachedAuthedState).delays = [2000, 2000]) := by
  have h := checkAuth_retry_policy 0 cachedAuthedState netErr rfl rfl (by decide)
  exact h.1 rfl

/-- Counterexample to claim C5 as stated: a 5xx failure is not retried at
all: checkAuth issues a single request and awaits no delay before falling
back to the cached session. -/
theorem checkAuth_5xx_not_retried_cex :
    ((checkAuth (fun _ => .err err500) 0 cachedAuthedState).requests = 1) ∧
    ((checkAuth (fun _ => .err err500) 0 cachedAuthedState).delays = []) := by
  decide

/-- Helper: whatever the attempt outcomes, a checkAuthGo run leaves
storage in one of three shapes: untouched, refreshed (user and last-check
keys written, token kept), or fully cleared of both session keys. -/
theorem checkAuthGo_storage_cases (outcomes : Nat → MeOutcome) (now : Nat) :
    ∀ (rl rc : Nat) (s : ClientState),
      (checkAuthGo outcomes now rl rc s).state.storage = s.storage ∨
      (∃ u : User, (checkAuthGo outcomes now rl rc s).state.storage =
        { s.storage with userVal := some (.ok u), lastAuthCheck := some (toString now) }) ∨
      (checkAuthGo outcomes now rl rc s).state.storage =
        { s.storage with token := none, userVal := none } := by
  intro rl
  induction rl with
  | zero =>
    intro rc s
    rw [checkAuthGo]
    by_cases hg : s.auth.authCheckInProgress = true
    · simp [hg]
    · by_cases htok : truthyOptS s.storage.token = false
      · simp [hg, htok]
      · cases ho : outcomes rc with
        | ok u => simp [hg, htok, ho]
        | err e =>
          by_cases h401 : e.status = some 401
          · simp [hg, htok, ho, checkAuthCatch, h401]
          · simp only [hg, htok, ho, checkAuthCatch, h401]
            rcases s.storage.userVal with _ | uv
            · simp
            · cases uv <;> simp [parseUserVal]
  | succ n ih =>
    intro rc s
    rw [checkAuthGo]
    by_cases hg : s.auth.authCheckInProgress = true
    · simp [hg]
    · by_cases htok : truthyOptS s.storage.token = false
      · simp [hg, htok]
      · cases ho : outcomes rc with
        | ok u => simp [hg, htok, ho]
        | err e =>
          by_cases hre : isRetryableErr e = true
          · simp only [hg, htok, ho, hre, if_true, if_false, Bool.false_eq_true]
            exact ih (rc + 1) _
          · by_cases h401 : e.status = some 401
            · simp [hg, htok, ho, hre, checkAuthCatch, h401]
            · simp only [hg, htok, ho, hre, checkAuthCatch, h401]
              rcases s.storage.userVal with _ | uv
              · simp
              · cases uv <;> simp [parseUserVal]

/-- Helper: the identity transition removes no key. -/
theorem removesOneAlone_self (st : Storage) : removesOneAlone st st = false := by
  obtain ⟨tok, uv, lac⟩ := st
  cases tok <;> cases uv <;> simp [removesOneAlone]

/-- Claim C8 (amended): every storage-mutating path of the client removes
the motofix_token and motofix_user keys together, with one exception: the
mount-time restore removes only the user key (leaving the token in place),
and it does so exactly when a truthy token is stored next to a truthy but
unparseable user string.  Covered paths: logout, the response interceptor
on any error, login, checkAuth under any outcomes, and the mount restore
(whose behaviour is characterised exactly). -/
theorem storage_keys_removed_together :
    (∀ st : Storage, removesOneAlone st (logoutStorage st) = false) ∧
    (∀ (e : ApiError) (w : BrowserState),
      removesOneAlone w.storage (interceptorOnResponseError e w).1.storage = false) ∧
    (∀ (access_token : Option String) (u : User) (now : Nat) (st : Storage),
      removesOneAlone st (loginStorage access_token u now st) = false) ∧
    (∀ (outcomes : Nat → MeOutcome) (now : Nat) (s : ClientState),
      removesOneAlone s.storage (checkAuth outcomes now s).state.storage = false) ∧
    (∀ s : ClientState, removesOneAlone s.storage (mountRestore s).storage =
      (truthyOptS s.storage.token &&
        match s.storage.userVal with
        | some (.bad bs) => !(bs == "")
        | _ => false)) := by
  refine ⟨?_, ?_, ?_, ?_, ?_⟩
  · intro st
    cases h : st.token <;> simp [logoutStorage, removesOneAlone, h]
  · intro e w
    by_cases h401 : e.status = some 401
    · simp [interceptorOnResponseError, h401, removesOneAlone]
    · simp [interceptorOnResponseError, h401, removesOneAlone_self]
  · intro access_token u now st
    by_cases ht : truthyOptS access_token = true
    · cases h : st.token <;>
        simp [loginStorage, ht, removesOneAlone, h, truthyOptS] at * <;>
          cases access_token <;> simp_all [truthyOptS]
    · cases h : st.token <;> simp [loginStorage, ht, removesOneAlone, h]
  · intro outcomes now s
    rcases checkAuthGo_storage_cases outcomes now 2 0 s with h | ⟨u, h⟩ | h <;>
      rw [checkAuth, h]
    · exact removesOneAlone_self _
    · cases ht : s.storage.token <;> simp [removesOneAlone, ht]
    · simp [removesOneAlone]
  · intro s
    obtain ⟨⟨tok, uv, lac⟩, u0, il, ia, g⟩ := s
    rcases uv with _ | u | bs
    · simp [mountRestore, truthyUserVal, removesOneAlone_self]
    · by_cases ht : truthyOptS tok = true <;>
        simp [mountRestore, truthyUserVal, parseUserVal, ht, removesOneAlone_self]
    · rcases tok with _ | t
      · simp [mountRestore, truthyOptS, truthyUserVal, removesOneAlone]
      · by_cases hb : bs = ""
        · subst hb
          simp [mountRestore, truthyUserVal, removesOneAlone_self]
        · by_cases ht : t = ""
          · subst ht
            simp [mountRestore, truthyOptS, truthyUserVal, hb, removesOneAlone_self]
          · simp [mountRestore, truthyOptS, truthyUserVal, parseUserVal, hb, ht, removesOneAlone]

/-- Counterexample to claim C8 as stated: on mount, with a token stored
next to a malformed cached user string, the client removes only the
motofix_user key and the token key stays in storage. -/
theorem mount_removes_user_key_alone_cex :
    ((mountRestore ⟨⟨some "tok", some (.bad "not-json"), none⟩, ⟨none, true, false, false⟩⟩).storage.token = some "tok") ∧
    ((mountRestore ⟨⟨some "tok", some (.bad "not-json"), none⟩, ⟨none, true, false, false⟩⟩).storage.userVal = none) ∧
    (removesOneAlone ⟨some "tok", some (.bad "not-json"), none⟩
      (mountRestore ⟨⟨some "tok", some (.bad "not-json"), none⟩, ⟨none, true, false, false⟩⟩).storage = true) := by
  decide

/-- Helper: once a request has been issued at a positive time last, the
next throttled call resumes no earlier than last + 1000. -/
theorem throttleResume_ge (last now slack : Int) (hl : 0 < last) (hs : 0 ≤ slack) :
    last + 1000 ≤ throttleResume last now slack := by
  unfold throttleResume MIN_INTERVAL_MS
  split <;> omega

/-- Helper: resume times of well-formed calls are positive. -/
theorem throttleResume_pos (last now slack : Int) (hl : 0 ≤ last) (hn : 0 < now) (hs : 0 ≤ slack) :
    0 < throttleResume last now slack := by
  unfold throttleResume MIN_INTERVAL_MS
  split <;> omega

/-- Helper: a request issued at positive time t followed by sequential
calls yields issue times spaced by at least 1000 ms. -/
theorem spaced_issueTimes_from (rest : List (Int × Int)) :
    ∀ t : Int, 0 < t → sequentialCalls t rest = true →
      spacedBy1000 (t :: issueTimes t rest) = true := by
  induction rest with
  | nil => intro t _ _; rfl
  | cons c rest2 ih =>
    obtain ⟨now, slack⟩ := c
    intro t ht hseq
    simp only [sequentialCalls, Bool.and_eq_true, decide_eq_true_eq] at hseq
    obtain ⟨⟨⟨hn, hs⟩, _⟩, hseq2⟩ := hseq
    simp only [issueTimes, spacedBy1000, Bool.and_eq_true, decide_eq_true_eq]
    have hge := throttleResume_ge t now slack ht hs
    refine ⟨by omega, ?_⟩
    exact ih (throttleResume t now slack) (by omega) hseq2

/-- Claim C6: starting from the module's initial state
(lastRequestTime = 0), any back-to-back sequence of reverseGeocode calls
issues its outbound requests at timestamps spaced at least 1000 ms apart:
each call computes the remaining wait from the process-wide last-request
time, delays by that amount if positive, then issues the request. -/
theorem reverseGeocode_spacing (calls : List (Int × Int))
    (h : sequentialCalls 0 calls = true) :
    spacedBy1000 (issueTimes 0 calls) = true := by
  cases calls with
  | nil => rfl
  | cons c rest =>
    obtain ⟨now, slack⟩ := c
    simp only [sequentialCalls, Bool.and_eq_true, decide_eq_true_eq] at h
    obtain ⟨⟨⟨hn, hs⟩, _⟩, hseq⟩ := h
    simp only [issueTimes]
    exact spaced_issueTimes_from rest _ (throttleResume_pos 0 now slack le_rfl hn hs) hseq

/-- Witness for C6: three concrete back-to-back calls at 5 ms, 300 ms and
2000 ms (the third with a timer 7 ms late) are issued at 5, 1005 and 2007,
all at least 1000 ms apart. -/
theorem reverseGeocode_spacing_witness :
    (sequentialCalls 0 [(5, 0), (300, 0), (2000, 7)] = true) ∧
    (spacedBy1000 (issueTimes 0 [(5, 0), (300, 0), (2000, 7)]) = true) :=
  ⟨by decide, reverseGeocode_spacing [(5, 0), (300, 0), (2000, 7)] (by decide)⟩

/-- Claim C7: reverseGeocode resolves to null on every failure mode: when
the fetch rejects (network error), when the response is not ok (any
non-2xx status), whatever its body, and when the payload cannot be
parsed; in this embedding it is a total function into Option, matching
the try/catch in the source that converts every thrown error into a null
return instead of a rejection. -/
theorem reverseGeocode_null_on_failure :
    (reverseGeocode .netError = none) ∧
    (∀ body : JsonBody, reverseGeocode (.resp false body) = none) ∧
    (reverseGeocode (.resp true .malformed) = none) := by
  refine ⟨rfl, ?_, rfl⟩
  intro body
  rfl

/-- Claim C9: parseCoordString returns a non-null pair exactly when
isCoordString accepts the same input, and every returned pair is finite
and within -90..90 latitude and -180..180 longitude. -/
theorem parseCoordString_iff_isCoordString :
    (∀ location : List Char, (parseCoordString location).isSome = isCoordString location) ∧
    (∀ (location : List Char) (p : CoordPair), parseCoordString location = some p →
      isFiniteJs p.lat = true ∧ isFiniteJs p.lng = true ∧
      jsLe (.num (-90) 1) p.lat = true ∧ jsLe p.lat (.num 90 1) = true ∧
      jsLe (.num (-180) 1) p.lng = true ∧ jsLe p.lng (.num 180 1) = true) := by
  constructor
  · intro location
    cases hc : isCoordString location <;> simp [parseCoordString, hc]
  · intro location p hp
    cases hc : isCoordString location with
    | false => simp [parseCoordString, hc] at hp
    | true =>
      simp only [parseCoordString, hc, Bool.not_true, Bool.false_eq_true, if_false,
        Option.some.injEq] at hp
      subst hp
      simp only [isCoordString] at hc
      by_cases he : location.isEmpty = true
      · rw [if_pos he] at hc
        exact absurd hc (by simp)
      · rw [if_neg he] at hc
        by_cases hl : ((splitOnComma (jsTrim location)).map jsTrim).length ≠ 2
        · rw [if_pos hl] at hc
          exact absurd hc (by simp)
        · rw [if_neg hl] at hc
          simp only [Bool.and_eq_true] at hc
          exact ⟨hc.1.1.1.1.1, hc.1.1.1.1.2, hc.1.1.1.2, hc.1.1.2, hc.1.2, hc.2⟩

/-- Witness for C9: the sample coordinate string parses to the expected
finite in-range pair. -/
theorem parseCoordString_bounds_witness :
    (parseCoordString coordSample = some ⟨.num 31 100, .num 3258 100⟩) ∧
    (isFiniteJs (JsNum.num 31 100) = true ∧ isFiniteJs (JsNum.num 3258 100) = true ∧
      jsLe (.num (-90) 1) (.num 31 100) = true ∧ jsLe (.num 31 100) (.num 90 1) = true ∧
      jsLe (.num (-180) 1) (.num 3258 100) = true ∧ jsLe (.num 3258 100) (.num 180 1) = true) :=
  ⟨by decide,
    parseCoordString_iff_isCoordString.2 coordSample ⟨.num 31 100, .num 3258 100⟩ (by decide)⟩

/-- Claim C10: formatPhone returns either the empty string or a plus
sign, the country code 256, and then nothing but decimal digits (every
non-digit of the input having been stripped). -/
theorem formatPhone_shape (value : List Char) :
    formatPhone value = [] ∨
    ∃ rest : List Char, formatPhone value = '+' :: '2' :: '5' :: '6' :: rest ∧
      rest.all isDigitChar = true := by
  have hall : ∀ c ∈ value.filter isDigitChar, isDigitChar c = true :=
    fun c hc => (List.mem_filter.mp hc).2
  rw [formatPhone]
  by_cases h1 : (['2', '5', '6'].isPrefixOf (value.filter isDigitChar)) = true
  · right
    obtain ⟨t, ht⟩ := List.isPrefixOf_iff_prefix.mp h1
    refine ⟨t, ?_, ?_⟩
    · simp only [← ht]
      simp [List.isPrefixOf]
    · rw [List.all_eq_true]
      intro c hcmem
      refine hall c ?_
      rw [← ht]
      exact List.mem_append_right _ hcmem
  · by_cases h2 : (['0'].isPrefixOf (value.filter isDigitChar)) = true
    · right
      obtain ⟨t, ht⟩ := List.isPrefixOf_iff_prefix.mp h2
      refine ⟨t, ?_, ?_⟩
      · simp only [← ht] at h1 ⊢
        simp [h1, List.isPrefixOf]
      · rw [List.all_eq_true]
        intro c hcmem
        refine hall c ?_
        rw [← ht]
        exact List.mem_append_right _ hcmem
    · by_cases h3 : (value.filter isDigitChar).length > 0
      · right
        exact ⟨value.filter isDigitChar, by simp [h1, h2, h3], by
          rw [List.all_eq_true]; exact hall⟩
      · left
        simp [h1, h2, h3]

end Motofix
